import Mathlib

/-!
Verification of `internal/cli/options.go` from `shallow-fetch-sha`.

The module is a thin options/validation layer around a Git library: it parses
CLI arguments into an `Options` struct, validates them, resolves an auth
method, and constructs worktree/storage backends.  We embed the struct and
its methods here.  External library operations are modelled as parameters or
as abstract constructors:

* `filepath.Abs` is passed in as a total function `abs : String → String`
  (it only fails when the working directory cannot be read, an environmental
  condition outside the program text);
* `url.Parse` is passed in as `urlParse : String → Option GoURL`, where
  `none` models the `(nil, err)` return of Go's parser — on error the
  returned pointer is nil, and dereferencing it panics, which we track with
  `GoResult.nilPanic`;
* `ssh.NewPublicKeysFromFile` is passed in as
  `loadKey : String → String → String → Except String AuthMethod`;
* billy filesystems and go-git storages become the inductives `BillyFS` and
  `Storer` (`osfs.New`, `Chroot`, `memfs.New`, `filesystem.NewStorage`,
  `memory.NewStorage` never fail on the paths this code takes them through).

Go errors are modelled as `Option String` carrying the error message
(`none` = nil error); methods that mutate the receiver through a pointer
return the updated `Options` alongside the error.
-/

/-- A billy filesystem value, as constructed by this module:
`osfs.New root`, a `Chroot` of another filesystem, or `memfs.New ()`. -/
inductive BillyFS where
  | osfs (root : String)
  | chroot (base : BillyFS) (path : String)
  | memfs
  deriving DecidableEq, Repr

/-- A go-git storage backend, as constructed by this module:
`filesystem.NewStorage fs cache` or `memory.NewStorage ()`. -/
inductive Storer where
  | filesystemStorage (fs : BillyFS)
  | memoryStorage
  deriving DecidableEq, Repr

/-- A transport auth method, as constructed by this module:
`ssh.PublicKeys` (loaded from a PEM file) or `http.BasicAuth`. -/
inductive AuthMethod where
  | publicKeys (user : String) (pemPath : String) (passphrase : String)
  | basicAuth (Username : String) (Password : String)
  deriving DecidableEq, Repr

/-- Result of running a piece of Go code that may panic on a nil pointer
dereference. -/
inductive GoResult (α : Type) where
  | ok (val : α)
  | nilPanic
  deriving DecidableEq, Repr

/-- A parsed `*url.URL`; only the userinfo component is read by this module. -/
structure GoURL where
  userName : String
  deriving DecidableEq, Repr

/-- `SSHAuthOptions` struct. -/
structure SSHAuthOptions where
  PEMPath : String
  Passphrase : String
  deriving DecidableEq, Repr

/-- `BasicAuthOptions` struct. -/
structure BasicAuthOptions where
  Username : String
  Password : String
  deriving DecidableEq, Repr

/-- The `Options` struct.  `storage` and `worktree` are the unexported
fields; a Go nil interface value is `none`. -/
structure Options where
  Repo : String
  SHA : String
  Directory : String
  RemoveDotGit : Bool
  BasicAuth : Option BasicAuthOptions
  SSHAuth : Option SSHAuthOptions
  storage : Option Storer
  worktree : Option BillyFS
  deriving DecidableEq, Repr

/-- `strings.Split` on a single-character separator, over the character
list: splitting the empty string yields `[[]]`, and every separator
occurrence starts a new piece. -/
def splitChars (sep : Char) : List Char → List (List Char)
  | [] => [[]]
  | c :: cs =>
    let r := splitChars sep cs
    if c = sep then [] :: r
    else
      match r with
      | [] => [[c]]
      | h :: t => (c :: h) :: t

/-- `strings.Split s sep` for a one-character separator `sep`. -/
def goSplit (s : String) (sep : Char) : List String :=
  (splitChars sep s.data).map String.mk

/-- The character class of the regexp `^[0-9a-fA-F]+$`:
digits `0`-`9` (code points 48-57), `a`-`f` (97-102), `A`-`F` (65-70). -/
def isHexChar (c : Char) : Bool :=
  decide ((48 ≤ c.toNat ∧ c.toNat ≤ 57) ∨ (97 ≤ c.toNat ∧ c.toNat ≤ 102) ∨
    (65 ≤ c.toNat ∧ c.toNat ≤ 70))

/-- `regHex.MatchString s` for `regHex = regexp.MustCompile("^[0-9a-fA-F]+$")`:
the anchored pattern matches iff the string is non-empty and every character
is hexadecimal. -/
def regHexMatchString (s : String) : Bool :=
  !s.isEmpty && s.data.all isHexChar

/-- `invalid(key, msg)`: `fmt.Errorf("%q is invalid: %s", key, msg)`. -/
def invalid (key msg : String) : String :=
  "\"" ++ key ++ "\" is invalid: " ++ msg

/-- The basic-auth sub-checks of `Options.Validate` (lines 111-119). -/
def checkBasicAuth : Option BasicAuthOptions → Option String
  | none => none
  | some ba =>
    if ba.Username = "" then
      some (invalid "username"
        "required if password specified (if using token, set username to \"token\")")
    else if ba.Password = "" then
      some (invalid "password" "required if username specified")
    else none

/-- The ssh-auth sub-check of `Options.Validate` (lines 121-125). -/
def checkSSHAuth : Option SSHAuthOptions → Option String
  | none => none
  | some sa =>
    if sa.PEMPath = "" then
      some (invalid "key-path" "required if ssh options set")
    else none

/-- The final storage-initialisation check of `Options.Validate`
(lines 127-129). -/
def checkStorageInit (opts : Options) : Option String :=
  if opts.worktree.isNone ∨ opts.storage.isNone then
    some "filesystem storage not initalized"
  else none

/-- `func (opts *Options) Validate() error`.  Checks run in source order:
repo, sha (`len` is the UTF-8 byte length, as Go's `len`), mutual exclusion
of the auth modes, basic-auth sub-fields, ssh sub-field, storage
initialisation. -/
def Options.Validate (opts : Options) : Option String :=
  if opts.Repo = "" then
    some (invalid "repo" "it is required")
  else if opts.SHA.utf8ByteSize ≠ 40 ∨ regHexMatchString opts.SHA = false then
    some (invalid "sha" "must be full 40 hexadecimal character SHA1")
  else if opts.BasicAuth.isSome = true ∧ opts.SSHAuth.isSome = true then
    some "cannot specify both basic auth and ssh auth options"
  else
    match checkBasicAuth opts.BasicAuth with
    | some e => some e
    | none =>
      match checkSSHAuth opts.SSHAuth with
      | some e => some e
      | none => checkStorageInit opts

/-- `func (opts *Options) Auth() (transport.AuthMethod, error)`.

In the ssh branch the source splits `opts.Repo` on `":"` and, when there are
exactly two pieces, runs `if parsed, err := url.Parse(pieces[0]); err != nil
{ parsedUser := parsed.User.Username(); ... }`.  The guarded block is entered
exactly when `url.Parse` FAILED, in which case `parsed` is nil and the field
access panics: this is `GoResult.nilPanic`.  When parsing succeeds the block
is skipped and `user` keeps its default `"git"`. -/
def Options.Auth (urlParse : String → Option GoURL)
    (loadKey : String → String → String → Except String AuthMethod)
    (opts : Options) : GoResult (Option AuthMethod × Option String) :=
  match opts.SSHAuth with
  | some sa =>
    let user := "git"
    let pieces := goSplit opts.Repo ':'
    if pieces.length = 2 ∧ urlParse (pieces.headD "") = none then
      GoResult.nilPanic
    else
      match loadKey user sa.PEMPath sa.Passphrase with
      | Except.ok m => GoResult.ok (some m, none)
      | Except.error e => GoResult.ok (none, some e)
  | none =>
    match opts.BasicAuth with
    | some ba =>
      let user := if ba.Username = "" then "token" else ba.Username
      let _ := user
      GoResult.ok (some (AuthMethod.basicAuth ba.Username ba.Password), none)
    | none => GoResult.ok (none, none)

/-- `func (opts *Options) BindArgs(args []string) error`. -/
def Options.BindArgs (opts : Options) (args : List String) :
    Option String × Options :=
  if args.length ≠ 2 then
    (some "missing arguments: must specify both repo and sha arguments", opts)
  else
    (none, { opts with Repo := args.headD "", SHA := (args.drop 1).headD "" })

/-- `func (opts *Options) SetStorageMode(mode StorageMode) error`.
`abs` models `filepath.Abs`; `git.GitDirName` is `".git"`;
`osfs.New(absDir).Chroot(".git")` never returns an error. -/
def Options.SetStorageMode (abs : String → String) (opts : Options)
    (mode : String) : Option String × Options :=
  if opts.Directory = "" then
    (some "must initalize directory before setting storage mode", opts)
  else if mode = "fs" then
    let wt := BillyFS.osfs (abs opts.Directory)
    let dotGit := wt.chroot ".git"
    (none, { opts with worktree := some wt,
                       storage := some (Storer.filesystemStorage dotGit) })
  else if mode = "mem" then
    (none, { opts with worktree := some BillyFS.memfs,
                       storage := some Storer.memoryStorage })
  else
    (some ("\"" ++ mode ++ "\" is an invalid storage mode"), opts)

/-! ## Helper lemmas -/

/-- A hexadecimal character is a single UTF-8 byte. -/
theorem Char.utf8Size_one_of_toNat_lt (c : Char) (h : c.toNat < 128) :
    c.utf8Size = 1 := by
  unfold Char.utf8Size
  have h1 : c.val ≤ (127 : UInt32) := by
    rw [UInt32.le_def, BitVec.le_def]
    exact Nat.le_of_lt_succ h
  simp [h1]

theorem toNat_lt_of_isHexChar (c : Char) (h : isHexChar c = true) :
    c.toNat < 128 := by
  simp only [isHexChar, decide_eq_true_eq] at h
  omega

theorem utf8Len_eq_length_of_hex :
    ∀ cs : List Char, cs.all isHexChar = true →
      String.utf8Len cs = cs.length
  | [], _ => rfl
  | c :: cs, h => by
    rw [List.all_cons, Bool.and_eq_true] at h
    rw [String.utf8Len_cons, utf8Len_eq_length_of_hex cs h.2,
      Char.utf8Size_one_of_toNat_lt c (toNat_lt_of_isHexChar c h.1),
      List.length_cons]

/-- On all-hexadecimal strings Go's byte length agrees with the character
count. -/
theorem utf8ByteSize_eq_length_of_hex (s : String)
    (h : s.data.all isHexChar = true) : s.utf8ByteSize = s.length := by
  cases s with
  | mk cs => exact utf8Len_eq_length_of_hex cs h

/-- The code's SHA test (`len(s) == 40 && regHex.MatchString(s)`) accepts
exactly the strings of 40 hexadecimal characters. -/
theorem sha_code_test_iff (s : String) :
    (s.utf8ByteSize = 40 ∧ regHexMatchString s = true) ↔
      (s.length = 40 ∧ s.data.all isHexChar = true) := by
  unfold regHexMatchString
  constructor
  · rintro ⟨h1, h2⟩
    rw [Bool.and_eq_true] at h2
    exact ⟨(utf8ByteSize_eq_length_of_hex s h2.2).symm.trans h1, h2.2⟩
  · rintro ⟨h1, h2⟩
    refine ⟨(utf8ByteSize_eq_length_of_hex s h2).trans h1, ?_⟩
    rw [Bool.and_eq_true]
    refine ⟨?_, h2⟩
    cases s with
    | mk cs =>
      cases cs with
      | nil => simp [String.length] at h1
      | cons c cs =>
        rw [Bool.not_eq_true']
        rw [← Bool.not_eq_true, String.isEmpty_iff]
        intro hcon
        have := congrArg String.data hcon
        simp at this

/-! ## Claim theorems -/

/-- A valid 40-hex-character SHA used in witnesses. -/
def sha40 : String := "0123456789abcdef0123456789ABCDEF01234567"

/-- C2: for every Options value with empty Repo, Validate returns an error
naming the "repo" key as required, regardless of all other fields. -/
theorem validate_requires_repo (opts : Options) (h : opts.Repo = "") :
    opts.Validate = some (invalid "repo" "it is required") := by
  simp [Options.Validate, h]

theorem validate_requires_repo_witness :
    Options.Validate
      { Repo := "", SHA := sha40, Directory := "d", RemoveDotGit := true,
        BasicAuth := some { Username := "u", Password := "p" },
        SSHAuth := some { PEMPath := "k", Passphrase := "x" },
        storage := some Storer.memoryStorage,
        worktree := some BillyFS.memfs } =
      some (invalid "repo" "it is required") :=
  validate_requires_repo _ rfl

/-- C3: auth modes are mutually exclusive — if the repo and SHA checks pass
and both BasicAuth and SSHAuth are non-nil, Validate returns an error. -/
theorem validate_mutual_exclusion (opts : Options)
    (h1 : opts.Repo ≠ "") (h2 : opts.SHA.utf8ByteSize = 40)
    (h3 : regHexMatchString opts.SHA = true)
    (h4 : opts.BasicAuth.isSome = true) (h5 : opts.SSHAuth.isSome = true) :
    opts.Validate = some "cannot specify both basic auth and ssh auth options" := by
  simp [Options.Validate, h1, h2, h3, h4, h5]

theorem validate_mutual_exclusion_witness :
    Options.Validate
      { Repo := "r", SHA := sha40, Directory := "", RemoveDotGit := false,
        BasicAuth := some { Username := "u", Password := "p" },
        SSHAuth := some { PEMPath := "k", Passphrase := "" },
        storage := none, worktree := none } =
      some "cannot specify both basic auth and ssh auth options" :=
  validate_mutual_exclusion _ (by decide) (by decide) (by decide) rfl rfl

/-- C6: with an empty Directory, SetStorageMode returns an error for every
mode (including "fs" and "mem") and leaves the Options — in particular the
worktree and storage fields — unchanged. -/
theorem setStorageMode_requires_directory (abs : String → String)
    (opts : Options) (mode : String) (h : opts.Directory = "") :
    opts.SetStorageMode abs mode =
      (some "must initalize directory before setting storage mode", opts) := by
  simp [Options.SetStorageMode, h]

theorem setStorageMode_requires_directory_witness :
    Options.SetStorageMode (fun s => s)
      { Repo := "r", SHA := sha40, Directory := "", RemoveDotGit := false,
        BasicAuth := none, SSHAuth := none, storage := none, worktree := none }
      "fs" =
      (some "must initalize directory before setting storage mode",
        { Repo := "r", SHA := sha40, Directory := "", RemoveDotGit := false,
          BasicAuth := none, SSHAuth := none, storage := none,
          worktree := none }) :=
  setStorageMode_requires_directory _ _ _ rfl

/-- C10: BindArgs errors exactly when the argument list does not have two
elements; on success it copies the two arguments into Repo and SHA and
changes nothing else; on error the Options value is unchanged. -/
theorem bindArgs_spec (opts : Options) (args : List String) :
    ((opts.BindArgs args).1.isSome = true ↔ args.length ≠ 2) ∧
    (∀ a b, args = [a, b] →
      opts.BindArgs args = (none, { opts with Repo := a, SHA := b })) ∧
    (args.length ≠ 2 →
      opts.BindArgs args =
        (some "missing arguments: must specify both repo and sha arguments",
          opts)) := by
  refine ⟨?_, ?_, ?_⟩
  · by_cases h : args.length = 2 <;> simp [Options.BindArgs, h]
  · rintro a b rfl
    simp [Options.BindArgs]
  · intro h
    simp [Options.BindArgs, h]

theorem bindArgs_spec_witness :
    Options.BindArgs
      { Repo := "", SHA := "", Directory := "d", RemoveDotGit := false,
        BasicAuth := none, SSHAuth := none, storage := none, worktree := none }
      ["myrepo", "mysha"] =
      (none,
        { Repo := "myrepo", SHA := "mysha", Directory := "d",
          RemoveDotGit := false, BasicAuth := none, SSHAuth := none,
          storage := none, worktree := none }) :=
  (bindArgs_spec _ ["myrepo", "mysha"]).2.1 "myrepo" "mysha" rfl

/-- C8: with SSHAuth nil and BasicAuth non-nil, the returned basic-auth
credential carries BasicAuth.Username and BasicAuth.Password verbatim
(even when Username is empty — the locally computed "token" default is
never written into the credential). -/
theorem auth_basic_verbatim (urlParse : String → Option GoURL)
    (loadKey : String → String → String → Except String AuthMethod)
    (opts : Options) (ba : BasicAuthOptions)
    (h1 : opts.SSHAuth = none) (h2 : opts.BasicAuth = some ba) :
    Options.Auth urlParse loadKey opts =
      GoResult.ok (some (AuthMethod.basicAuth ba.Username ba.Password), none) := by
  simp [Options.Auth, h1, h2]

theorem auth_basic_verbatim_witness :
    Options.Auth (fun _ => some { userName := "" })
      (fun u p pp => Except.ok (AuthMethod.publicKeys u p pp))
      { Repo := "r", SHA := sha40, Directory := "", RemoveDotGit := false,
        BasicAuth := some { Username := "", Password := "secrettoken" },
        SSHAuth := none, storage := none, worktree := none } =
      GoResult.ok (some (AuthMethod.basicAuth "" "secrettoken"), none) :=
  auth_basic_verbatim _ _ _ { Username := "", Password := "secrettoken" }
    rfl rfl

/-- C9: with SSHAuth non-nil, whenever splitting Repo on ":" yields exactly
two pieces and URL-parsing the first piece fails (Go returns a nil pointer
and a non-nil error), Auth enters the username branch with the nil result
and dereferences it — a nil-pointer panic.  The branch is reachable exactly
with a nil parse result, contradicting the claim. -/
theorem auth_nil_deref_on_parse_failure (urlParse : String → Option GoURL)
    (loadKey : String → String → String → Except String AuthMethod)
    (opts : Options) (sa : SSHAuthOptions)
    (h1 : opts.SSHAuth = some sa)
    (h2 : (goSplit opts.Repo ':').length = 2)
    (h3 : urlParse ((goSplit opts.Repo ':').headD "") = none) :
    Options.Auth urlParse loadKey opts = GoResult.nilPanic := by
  unfold Options.Auth
  rw [h1]
  exact if_pos ⟨h2, h3⟩

theorem auth_nil_deref_on_parse_failure_witness :
    Options.Auth (fun s => if s = "%zz" then none else some { userName := "" })
      (fun u p pp => Except.ok (AuthMethod.publicKeys u p pp))
      { Repo := "%zz:x", SHA := "", Directory := "", RemoveDotGit := false,
        BasicAuth := none,
        SSHAuth := some { PEMPath := "id_rsa", Passphrase := "" },
        storage := none, worktree := none } = GoResult.nilPanic :=
  auth_nil_deref_on_parse_failure _ _ _
    { PEMPath := "id_rsa", Passphrase := "" } rfl (by decide) (by decide)

/-- C5: with a non-empty Directory, mode "fs" installs an OS filesystem
worktree rooted at the absolute form of Directory and on-disk storage under
its ".git" chroot; mode "mem" installs an in-memory worktree and in-memory
storage; any other mode returns an error and leaves the Options (hence the
worktree and storage fields) unchanged. -/
theorem setStorageMode_modes (abs : String → String) (opts : Options)
    (h : opts.Directory ≠ "") :
    (opts.SetStorageMode abs "fs" =
      (none, { opts with
        worktree := some (BillyFS.osfs (abs opts.Directory)),
        storage := some (Storer.filesystemStorage
          ((BillyFS.osfs (abs opts.Directory)).chroot ".git")) })) ∧
    (opts.SetStorageMode abs "mem" =
      (none, { opts with worktree := some BillyFS.memfs,
                         storage := some Storer.memoryStorage })) ∧
    (∀ mode, mode ≠ "fs" → mode ≠ "mem" →
      opts.SetStorageMode abs mode =
        (some ("\"" ++ mode ++ "\" is an invalid storage mode"), opts)) := by
  refine ⟨?_, ?_, ?_⟩
  · simp [Options.SetStorageMode, h]
  · simp [Options.SetStorageMode, h]
  · intro mode hfs hmem
    simp [Options.SetStorageMode, h, hfs, hmem]

theorem setStorageMode_modes_witness :
    Options.SetStorageMode (fun s => "/cwd/" ++ s)
      { Repo := "r", SHA := sha40, Directory := "out", RemoveDotGit := false,
        BasicAuth := none, SSHAuth := none, storage := none, worktree := none }
      "fs" =
      (none,
        { Repo := "r", SHA := sha40, Directory := "out",
          RemoveDotGit := false, BasicAuth := none, SSHAuth := none,
          storage := some (Storer.filesystemStorage
            ((BillyFS.osfs "/cwd/out").chroot ".git")),
          worktree := some (BillyFS.osfs "/cwd/out") }) :=
  (setStorageMode_modes (fun s => "/cwd/" ++ s) _ (by decide)).1

/-- C7: the claim describes `Auth` as always returning the loaded ssh key
(or the load error) when SSHAuth is set; the code instead panics on a nil
pointer whenever Repo splits on ":" into exactly two pieces whose first
piece fails URL parsing (e.g. `"%zz:x"`, since `url.Parse "%zz"` reports an
invalid URL escape), because the inverted `err != nil` guard enters the
username branch with a nil parse result.  Evaluation at that failing
input: -/
theorem auth_ssh_panics_at_failing_input :
    Options.Auth (fun s => if s = "%zz" then none else some { userName := "" })
      (fun u p pp => Except.ok (AuthMethod.publicKeys u p pp))
      { Repo := "%zz:x", SHA := sha40, Directory := "", RemoveDotGit := false,
        BasicAuth := none,
        SSHAuth := some { PEMPath := "key.pem", Passphrase := "pw" },
        storage := none, worktree := none } = GoResult.nilPanic := by
  decide

/-! ## C1: the sha-named error characterises exactly the SHA test -/

theorem checkBasicAuth_ne_shaErr (ob : Option BasicAuthOptions) :
    checkBasicAuth ob ≠
      some (invalid "sha" "must be full 40 hexadecimal character SHA1") := by
  cases ob with
  | none => simp [checkBasicAuth]
  | some ba =>
    by_cases hu : ba.Username = ""
    · simp only [checkBasicAuth, if_pos hu]
      decide
    · by_cases hp : ba.Password = ""
      · simp only [checkBasicAuth, if_neg hu, if_pos hp]
        decide
      · simp [checkBasicAuth, hu, hp]

theorem checkSSHAuth_ne_shaErr (os : Option SSHAuthOptions) :
    checkSSHAuth os ≠
      some (invalid "sha" "must be full 40 hexadecimal character SHA1") := by
  cases os with
  | none => simp [checkSSHAuth]
  | some sa =>
    by_cases hp : sa.PEMPath = ""
    · simp only [checkSSHAuth, if_pos hp]
      decide
    · simp [checkSSHAuth, hp]

theorem checkStorageInit_ne_shaErr (opts : Options) :
    checkStorageInit opts ≠
      some (invalid "sha" "must be full 40 hexadecimal character SHA1") := by
  unfold checkStorageInit
  split
  · decide
  · simp

/-- An Options value with non-empty Repo, a valid 40-hex SHA, initialized
storage, but both auth modes set. -/
def optsBothAuth : Options :=
  { Repo := "r", SHA := sha40, Directory := "", RemoveDotGit := false,
    BasicAuth := some { Username := "u", Password := "p" },
    SSHAuth := some { PEMPath := "k", Passphrase := "" },
    storage := some Storer.memoryStorage, worktree := some BillyFS.memfs }

/-- C1 counterexample: an Options value with non-empty Repo whose SHA is a
valid 40-hex string, yet Validate still returns an error (both auth modes
are set) — so "Validate returns an error iff the SHA is not 40 hex
characters" fails in the only-if direction. -/
theorem validate_sha_error_counterexample :
    optsBothAuth.Repo ≠ "" ∧ optsBothAuth.SHA.length = 40 ∧
      optsBothAuth.SHA.data.all isHexChar = true ∧
      optsBothAuth.Validate.isSome = true := by
  decide

/-- C1 (amended): for every Options value with non-empty Repo, Validate
returns the error naming the "sha" key if and only if the SHA field is not
a string of exactly 40 hexadecimal characters (when the SHA is valid,
Validate may still fail a later check, but never with the sha error). -/
theorem validate_sha_error_iff (opts : Options) (h : opts.Repo ≠ "") :
    opts.Validate =
        some (invalid "sha" "must be full 40 hexadecimal character SHA1") ↔
      ¬(opts.SHA.length = 40 ∧ opts.SHA.data.all isHexChar = true) := by
  rw [← sha_code_test_iff]
  constructor
  · intro hv hcode
    obtain ⟨h2, h3⟩ := hcode
    unfold Options.Validate at hv
    rw [if_neg h] at hv
    have hc2 : ¬(opts.SHA.utf8ByteSize ≠ 40 ∨
        regHexMatchString opts.SHA = false) := by
      simp [h2, h3]
    rw [if_neg hc2] at hv
    by_cases hb : opts.BasicAuth.isSome = true ∧ opts.SSHAuth.isSome = true
    · rw [if_pos hb] at hv
      rw [Option.some.injEq] at hv
      revert hv
      decide
    · rw [if_neg hb] at hv
      cases hcb : checkBasicAuth opts.BasicAuth with
      | some e =>
        rw [hcb] at hv
        exact checkBasicAuth_ne_shaErr opts.BasicAuth (hcb.trans hv)
      | none =>
        rw [hcb] at hv
        cases hcs : checkSSHAuth opts.SSHAuth with
        | some e =>
          rw [hcs] at hv
          exact checkSSHAuth_ne_shaErr opts.SSHAuth (hcs.trans hv)
        | none =>
          rw [hcs] at hv
          exact checkStorageInit_ne_shaErr opts hv
  · intro hncode
    have hbad : opts.SHA.utf8ByteSize ≠ 40 ∨
        regHexMatchString opts.SHA = false := by
      by_contra hc
      push_neg at hc
      refine hncode ⟨hc.1, ?_⟩
      cases hcase : regHexMatchString opts.SHA with
      | true => rfl
      | false => exact absurd hcase hc.2
    unfold Options.Validate
    rw [if_neg h, if_pos hbad]

theorem validate_sha_error_iff_witness :
    Options.Validate
      { Repo := "r", SHA := "abc", Directory := "", RemoveDotGit := false,
        BasicAuth := none, SSHAuth := none, storage := none,
        worktree := none } =
      some (invalid "sha" "must be full 40 hexadecimal character SHA1") :=
  (validate_sha_error_iff _ (by decide)).mpr (by decide)

/-! ## C4: credential sub-field checks -/

/-- An Options value that passes the repo, SHA and mutual-exclusion checks
and has a fully populated BasicAuth, but uninitialized storage. -/
def optsNoStorage : Options :=
  { Repo := "r", SHA := sha40, Directory := "", RemoveDotGit := false,
    BasicAuth := some { Username := "u", Password := "p" },
    SSHAuth := none, storage := none, worktree := none }

/-- C4 counterexample: this Options value passes the repo, SHA and
mutual-exclusion checks, has BasicAuth non-nil with non-empty Username and
Password, yet Validate still returns an error (the storage-initialisation
check fails) — so "Validate returns an error exactly when Username or
Password is empty" fails in the only-if direction. -/
theorem validate_credential_counterexample :
    optsNoStorage.Repo ≠ "" ∧ optsNoStorage.SHA.utf8ByteSize = 40 ∧
      regHexMatchString optsNoStorage.SHA = true ∧
      ¬(optsNoStorage.BasicAuth.isSome = true ∧
        optsNoStorage.SSHAuth.isSome = true) ∧
      optsNoStorage.BasicAuth =
        some { Username := "u", Password := "p" } ∧
      optsNoStorage.Validate.isSome = true := by
  decide

/-- C4 (amended): for every Options value that passes the repo, SHA and
mutual-exclusion checks AND whose worktree and storage are initialized:
if BasicAuth is non-nil, Validate errors exactly when Username or Password
is empty (Username checked first); if SSHAuth is non-nil, Validate errors
exactly when PEMPath is empty (the passphrase may be empty). -/
theorem validate_credential_subfields (opts : Options)
    (h1 : opts.Repo ≠ "") (h2 : opts.SHA.utf8ByteSize = 40)
    (h3 : regHexMatchString opts.SHA = true)
    (h4 : ¬(opts.BasicAuth.isSome = true ∧ opts.SSHAuth.isSome = true))
    (h5 : opts.worktree.isSome = true) (h6 : opts.storage.isSome = true) :
    (∀ ba, opts.BasicAuth = some ba →
      (opts.Validate.isSome = true ↔ (ba.Username = "" ∨ ba.Password = "")) ∧
      (ba.Username = "" →
        opts.Validate = some (invalid "username"
          "required if password specified (if using token, set username to \"token\")")) ∧
      (¬ba.Username = "" → ba.Password = "" →
        opts.Validate =
          some (invalid "password" "required if username specified"))) ∧
    (∀ sa, opts.SSHAuth = some sa →
      (opts.Validate.isSome = true ↔ sa.PEMPath = "") ∧
      (sa.PEMPath = "" →
        opts.Validate =
          some (invalid "key-path" "required if ssh options set"))) := by
  have hsha : ¬(opts.SHA.utf8ByteSize ≠ 40 ∨
      regHexMatchString opts.SHA = false) := by
    simp [h2, h3]
  obtain ⟨wt, hwt⟩ := Option.isSome_iff_exists.mp h5
  obtain ⟨st, hst⟩ := Option.isSome_iff_exists.mp h6
  have hstor : checkStorageInit opts = none := by
    simp [checkStorageInit, hwt, hst]
  constructor
  · intro ba hba
    have hss : opts.SSHAuth = none := by
      cases hcase : opts.SSHAuth with
      | none => rfl
      | some sa => exact absurd ⟨by rw [hba]; rfl, by rw [hcase]; rfl⟩ h4
    have hval : opts.Validate = checkBasicAuth (some ba) := by
      unfold Options.Validate
      rw [if_neg h1, if_neg hsha, if_neg h4, hba, hss, hstor]
      cases checkBasicAuth (some ba) <;> simp [checkSSHAuth]
    refine ⟨?_, ?_, ?_⟩
    · rw [hval]
      by_cases hu : ba.Username = "" <;> by_cases hp : ba.Password = "" <;>
        simp [checkBasicAuth, hu, hp]
    · intro hu
      rw [hval]
      simp [checkBasicAuth, hu]
    · intro hu hp
      rw [hval]
      simp [checkBasicAuth, hu, hp]
  · intro sa hsa
    have hbn : opts.BasicAuth = none := by
      cases hcase : opts.BasicAuth with
      | none => rfl
      | some ba => exact absurd ⟨by rw [hcase]; rfl, by rw [hsa]; rfl⟩ h4
    have hval : opts.Validate = checkSSHAuth (some sa) := by
      unfold Options.Validate
      rw [if_neg h1, if_neg hsha, if_neg h4, hbn, hsa, hstor]
      cases checkSSHAuth (some sa) <;> simp [checkBasicAuth]
    constructor
    · rw [hval]
      by_cases hp : sa.PEMPath = "" <;> simp [checkSSHAuth, hp]
    · intro hp
      rw [hval]
      simp [checkSSHAuth, hp]

theorem validate_credential_subfields_witness :
    Options.Validate
      { Repo := "r", SHA := sha40, Directory := "", RemoveDotGit := false,
        BasicAuth := some { Username := "", Password := "p" },
        SSHAuth := none, storage := some Storer.memoryStorage,
        worktree := some BillyFS.memfs } =
      some (invalid "username"
        "required if password specified (if using token, set username to \"token\")") :=
  ((validate_credential_subfields
      { Repo := "r", SHA := sha40, Directory := "", RemoveDotGit := false,
        BasicAuth := some { Username := "", Password := "p" },
        SSHAuth := none, storage := some Storer.memoryStorage,
        worktree := some BillyFS.memfs }
      (by decide) (by decide) (by decide) (by decide) rfl rfl).1
    { Username := "", Password := "p" } rfl).2.1 rfl
